import Mathlib

/-
Verification of the bybit market-data client (src/src/bybit/market.rs).

The client is a thin capability over a shared request dispatcher: each of
the fourteen methods resolves a wire path from the endpoint catalog and
forwards verb GET, the resolved path, the caller query and the
authenticated flag to the dispatcher, returning its result unchanged.

The embedding threads an explicit trace of dispatch requests through each
call, so that the number and content of dispatcher invocations is a
provable function of the call.
-/

namespace Bybit

/-- Structured response value, mirroring serde_json::Value: a schema-less
tree of scalars, arrays and objects. -/
inductive Value where
  | null : Value
  | bool (b : Bool) : Value
  | num (n : Int) : Value
  | str (s : String) : Value
  | arr (elems : List Value) : Value
  | obj (fields : List (String × Value)) : Value

/-- Modelled from the spec: the dispatcher-owned error taxonomy of section 7
(transport failure, authentication failure, rate-limit rejection,
malformed response, upstream business error); the concrete error type of
the dispatcher is not under src/. -/
inductive DispatchError where
  | transportFailure : DispatchError
  | authenticationFailure : DispatchError
  | rateLimitRejection : DispatchError
  | malformedResponse : DispatchError
  | upstreamBusinessError (msg : String) : DispatchError
deriving DecidableEq

/-- HTTP verb, mirroring the relevant part of reqwest::Method. -/
inductive Method where
  | GET : Method
  | POST : Method
deriving DecidableEq

/-- Query parameters: the HashMap of string keys to string values passed to
every client method, modelled as an association list. -/
abbrev Query := List (String × String)

/-- Modelled from the spec: the endpoint catalog enumeration
(v5market::MarketEnum in src/endpoints/v5market.rs, which is not under
src/) — a closed set of fourteen logical operation identifiers, one per
documented market-data endpoint. The member names are the ones the client
code refers to. -/
inductive MarketEnum where
  | GetKline : MarketEnum
  | GetMarkPriceKline : MarketEnum
  | GetIndexPriceKline : MarketEnum
  | GetPremiumIndexPriceKline : MarketEnum
  | GetInstrumentsInfo : MarketEnum
  | GetOrderbook : MarketEnum
  | GetTickers : MarketEnum
  | GetFundingRateHistory : MarketEnum
  | GetPublicTradingHistory : MarketEnum
  | GetOpenInterest : MarketEnum
  | GetHistoricalVolatility : MarketEnum
  | GetInsurance : MarketEnum
  | GetRiskLimit : MarketEnum
  | GetOptionDeliveryPrice : MarketEnum
deriving DecidableEq, Fintype

/-- Modelled from the spec: the catalog resolution (the Display impl behind
MarketEnum::to_string in src/endpoints/v5market.rs, not under src/); the
wire path strings follow the list in section 6 of the spec. -/
def MarketEnum.to_string : MarketEnum → String
  | .GetKline => "kline"
  | .GetMarkPriceKline => "mark-price-kline"
  | .GetIndexPriceKline => "index-price-kline"
  | .GetPremiumIndexPriceKline => "premium-index-price-kline"
  | .GetInstrumentsInfo => "instruments-info"
  | .GetOrderbook => "orderbook"
  | .GetTickers => "tickers"
  | .GetFundingRateHistory => "funding-rate-history"
  | .GetPublicTradingHistory => "recent-trade"
  | .GetOpenInterest => "open-interest"
  | .GetHistoricalVolatility => "historical-volatility"
  | .GetInsurance => "insurance"
  | .GetRiskLimit => "risk-limit"
  | .GetOptionDeliveryPrice => "option-delivery-price"

/-- The fourteen catalog members, in declaration order. -/
def MarketEnum.all : List MarketEnum :=
  [.GetKline, .GetMarkPriceKline, .GetIndexPriceKline,
   .GetPremiumIndexPriceKline, .GetInstrumentsInfo, .GetOrderbook,
   .GetTickers, .GetFundingRateHistory, .GetPublicTradingHistory,
   .GetOpenInterest, .GetHistoricalVolatility, .GetInsurance,
   .GetRiskLimit, .GetOptionDeliveryPrice]

/-- Dispatch Request: the tuple of HTTP verb, wire path, query parameters
and authentication-required flag handed to the dispatcher. -/
structure DispatchRequest where
  verb : Method
  path : String
  query : Query
  authenticated : Bool
deriving DecidableEq

/-- Modelled from the spec: the dispatcher (HttpManager in
src/src/bybit/http_manager.rs, not under src/), specified in section 6 as
the external collaborator mapping a fully-determined dispatch request to a
structured value or an error. Its behaviour on a request is an arbitrary
response function. -/
structure HttpManager where
  respond : DispatchRequest → Except DispatchError Value

/-- Trace of dispatch requests issued so far; the observable network effect
of a run. -/
abbrev Trace := List DispatchRequest

/-- Modelled from the spec: HttpManager::submit_request, the single entry
point the client calls. It records exactly one dispatch request on the
trace and returns the dispatcher response for that request. -/
def HttpManager.submit_request (m : HttpManager) (verb : Method)
    (url : String) (query : Query) (auth : Bool) (t : Trace) :
    Trace × Except DispatchError Value :=
  (t ++ [⟨verb, url, query, auth⟩], m.respond ⟨verb, url, query, auth⟩)

/-- The MarketHTTP client struct: its only field is the shared reference to
the dispatcher. -/
structure MarketHTTP where
  http_manager : HttpManager

/-- MarketHTTP::new — construction by injecting the dispatcher. -/
def MarketHTTP.new (http_manager : HttpManager) : MarketHTTP :=
  ⟨http_manager⟩

def MarketHTTP.get_kline (self : MarketHTTP) (query : Query) (t : Trace) :
    Trace × Except DispatchError Value :=
  self.http_manager.submit_request Method.GET
    (MarketEnum.to_string MarketEnum.GetKline) query true t

def MarketHTTP.get_mark_price_kline (self : MarketHTTP) (query : Query)
    (t : Trace) : Trace × Except DispatchError Value :=
  self.http_manager.submit_request Method.GET
    (MarketEnum.to_string MarketEnum.GetMarkPriceKline) query true t

def MarketHTTP.get_index_price_kline (self : MarketHTTP) (query : Query)
    (t : Trace) : Trace × Except DispatchError Value :=
  self.http_manager.submit_request Method.GET
    (MarketEnum.to_string MarketEnum.GetIndexPriceKline) query true t

def MarketHTTP.get_premium_index_price_kline (self : MarketHTTP)
    (query : Query) (t : Trace) : Trace × Except DispatchError Value :=
  self.http_manager.submit_request Method.GET
    (MarketEnum.to_string MarketEnum.GetPremiumIndexPriceKline) query true t

def MarketHTTP.get_instruments_info (self : MarketHTTP) (query : Query)
    (t : Trace) : Trace × Except DispatchError Value :=
  self.http_manager.submit_request Method.GET
    (MarketEnum.to_string MarketEnum.GetInstrumentsInfo) query true t

def MarketHTTP.get_orderbook (self : MarketHTTP) (query : Query)
    (t : Trace) : Trace × Except DispatchError Value :=
  self.http_manager.submit_request Method.GET
    (MarketEnum.to_string MarketEnum.GetOrderbook) query true t

def MarketHTTP.get_tickers (self : MarketHTTP) (query : Query)
    (t : Trace) : Trace × Except DispatchError Value :=
  self.http_manager.submit_request Method.GET
    (MarketEnum.to_string MarketEnum.GetTickers) query true t

def MarketHTTP.get_funding_rate_history (self : MarketHTTP) (query : Query)
    (t : Trace) : Trace × Except DispatchError Value :=
  self.http_manager.submit_request Method.GET
    (MarketEnum.to_string MarketEnum.GetFundingRateHistory) query true t

def MarketHTTP.get_public_trade_history (self : MarketHTTP) (query : Query)
    (t : Trace) : Trace × Except DispatchError Value :=
  self.http_manager.submit_request Method.GET
    (MarketEnum.to_string MarketEnum.GetPublicTradingHistory) query true t

def MarketHTTP.get_open_interest (self : MarketHTTP) (query : Query)
    (t : Trace) : Trace × Except DispatchError Value :=
  self.http_manager.submit_request Method.GET
    (MarketEnum.to_string MarketEnum.GetOpenInterest) query true t

def MarketHTTP.get_historical_volatility (self : MarketHTTP) (query : Query)
    (t : Trace) : Trace × Except DispatchError Value :=
  self.http_manager.submit_request Method.GET
    (MarketEnum.to_string MarketEnum.GetHistoricalVolatility) query true t

def MarketHTTP.get_insurance (self : MarketHTTP) (query : Query)
    (t : Trace) : Trace × Except DispatchError Value :=
  self.http_manager.submit_request Method.GET
    (MarketEnum.to_string MarketEnum.GetInsurance) query true t

def MarketHTTP.get_risk_limit (self : MarketHTTP) (query : Query)
    (t : Trace) : Trace × Except DispatchError Value :=
  self.http_manager.submit_request Method.GET
    (MarketEnum.to_string MarketEnum.GetRiskLimit) query true t

def MarketHTTP.get_option_delivery_price (self : MarketHTTP) (query : Query)
    (t : Trace) : Trace × Except DispatchError Value :=
  self.http_manager.submit_request Method.GET
    (MarketEnum.to_string MarketEnum.GetOptionDeliveryPrice) query true t

/-- The type of a client method, as seen from outside. -/
abbrev ClientMethod :=
  MarketHTTP → Query → Trace → Trace × Except DispatchError Value

/-- The dispatch request a method for operation op builds from query q. -/
def mkReq (op : MarketEnum) (q : Query) : DispatchRequest :=
  ⟨Method.GET, MarketEnum.to_string op, q, true⟩

/-- The method issues exactly one dispatch request: a GET on the resolved
path of op, authenticated, carrying the query unchanged. -/
def issuesSingleRequest (f : ClientMethod) (op : MarketEnum) : Prop :=
  ∀ c q t, (f c q t).1 = t ++ [mkReq op q]

/-- The method returns exactly the dispatcher response for its one
request, unchanged. -/
def passesThroughResponse (f : ClientMethod) (op : MarketEnum) : Prop :=
  ∀ c q t, (f c q t).2 = c.http_manager.respond (mkReq op q)

/-- If the dispatcher answers the method request with an error, the method
returns that same error after exactly one dispatch. -/
def propagatesDispatcherError (f : ClientMethod) (op : MarketEnum) : Prop :=
  ∀ c q t e, c.http_manager.respond (mkReq op q) = Except.error e →
    f c q t = (t ++ [mkReq op q], Except.error e)

/-- Calling the method twice with the same query issues two independent
dispatch requests: no caching, no deduplication. -/
def dispatchesTwiceOnRepeat (f : ClientMethod) (op : MarketEnum) : Prop :=
  ∀ c q t, (f c q (f c q t).1).1 = t ++ [mkReq op q, mkReq op q]

/-- The routing components of a dispatch request: verb, path and
authenticated flag, everything but the parameters. -/
def routing (r : DispatchRequest) : Method × String × Bool :=
  (r.verb, r.path, r.authenticated)

/-- The requests a call adds to the trace, for two arbitrary queries, have
identical routing components: verb, path and authenticated flag do not
depend on the parameter mapping. -/
def routingIndependentOfParams (f : ClientMethod) : Prop :=
  ∀ c q₁ q₂ t,
    ((f c q₁ t).1.drop t.length).map routing
      = ((f c q₂ t).1.drop t.length).map routing

/-- All fourteen methods issue their single authenticated GET request on
the path resolved from their own catalog member. -/
def clientMethodsDispatchCorrectly : Prop :=
  issuesSingleRequest MarketHTTP.get_kline MarketEnum.GetKline ∧
  issuesSingleRequest MarketHTTP.get_mark_price_kline
    MarketEnum.GetMarkPriceKline ∧
  issuesSingleRequest MarketHTTP.get_index_price_kline
    MarketEnum.GetIndexPriceKline ∧
  issuesSingleRequest MarketHTTP.get_premium_index_price_kline
    MarketEnum.GetPremiumIndexPriceKline ∧
  issuesSingleRequest MarketHTTP.get_instruments_info
    MarketEnum.GetInstrumentsInfo ∧
  issuesSingleRequest MarketHTTP.get_orderbook MarketEnum.GetOrderbook ∧
  issuesSingleRequest MarketHTTP.get_tickers MarketEnum.GetTickers ∧
  issuesSingleRequest MarketHTTP.get_funding_rate_history
    MarketEnum.GetFundingRateHistory ∧
  issuesSingleRequest MarketHTTP.get_public_trade_history
    MarketEnum.GetPublicTradingHistory ∧
  issuesSingleRequest MarketHTTP.get_open_interest
    MarketEnum.GetOpenInterest ∧
  issuesSingleRequest MarketHTTP.get_historical_volatility
    MarketEnum.GetHistoricalVolatility ∧
  issuesSingleRequest MarketHTTP.get_insurance MarketEnum.GetInsurance ∧
  issuesSingleRequest MarketHTTP.get_risk_limit MarketEnum.GetRiskLimit ∧
  issuesSingleRequest MarketHTTP.get_option_delivery_price
    MarketEnum.GetOptionDeliveryPrice

/-- Helper: the fourteen single-request equations, each by reflexivity. -/
theorem clientMethodsDispatchCorrectly_holds : clientMethodsDispatchCorrectly := by
  repeat' apply And.intro
  all_goals intro c q t
  all_goals rfl

/-- Helper: submit_request with an erroring dispatcher returns that error
and logs the one request. -/
theorem submit_request_error (m : HttpManager) (v : Method) (p : String)
    (q : Query) (a : Bool) (t : Trace) (e : DispatchError)
    (h : m.respond ⟨v, p, q, a⟩ = Except.error e) :
    m.submit_request v p q a t = (t ++ [⟨v, p, q, a⟩], Except.error e) := by
  simp [HttpManager.submit_request, h]

/-- Helper: appending the same request twice, reassociated. -/
theorem trace_append_two (t : Trace) (r : DispatchRequest) :
    (t ++ [r]) ++ [r] = t ++ [r, r] := by
  simp

/-- Helper: dropping the prior trace leaves exactly the new request. -/
theorem trace_drop_new (t : Trace) (r : DispatchRequest) :
    (t ++ [r]).drop t.length = [r] :=
  List.drop_left t [r]

/-- Helper: a method that issues a single request for a fixed operation has
routing independent of the parameter mapping. -/
theorem routingIndependent_of_single (f : ClientMethod) (op : MarketEnum)
    (h : issuesSingleRequest f op) : routingIndependentOfParams f := by
  intro c q₁ q₂ t
  rw [h c q₁ t, h c q₂ t, trace_drop_new, trace_drop_new]
  rfl

/-- Claim C1: every one of the fourteen client methods, on any query
mapping, issues exactly one Dispatch Request, whose verb is GET, whose
authenticated flag is true, whose path is the catalog resolution of the
operation of that method, and whose parameters are the supplied mapping
unchanged — no key added, removed or renamed. -/
theorem market_methods_single_get_dispatch : clientMethodsDispatchCorrectly :=
  clientMethodsDispatchCorrectly_holds

/-- All fourteen methods return the dispatcher response for their single
request unchanged. -/
def clientMethodsPassThrough : Prop :=
  passesThroughResponse MarketHTTP.get_kline MarketEnum.GetKline ∧
  passesThroughResponse MarketHTTP.get_mark_price_kline
    MarketEnum.GetMarkPriceKline ∧
  passesThroughResponse MarketHTTP.get_index_price_kline
    MarketEnum.GetIndexPriceKline ∧
  passesThroughResponse MarketHTTP.get_premium_index_price_kline
    MarketEnum.GetPremiumIndexPriceKline ∧
  passesThroughResponse MarketHTTP.get_instruments_info
    MarketEnum.GetInstrumentsInfo ∧
  passesThroughResponse MarketHTTP.get_orderbook MarketEnum.GetOrderbook ∧
  passesThroughResponse MarketHTTP.get_tickers MarketEnum.GetTickers ∧
  passesThroughResponse MarketHTTP.get_funding_rate_history
    MarketEnum.GetFundingRateHistory ∧
  passesThroughResponse MarketHTTP.get_public_trade_history
    MarketEnum.GetPublicTradingHistory ∧
  passesThroughResponse MarketHTTP.get_open_interest
    MarketEnum.GetOpenInterest ∧
  passesThroughResponse MarketHTTP.get_historical_volatility
    MarketEnum.GetHistoricalVolatility ∧
  passesThroughResponse MarketHTTP.get_insurance MarketEnum.GetInsurance ∧
  passesThroughResponse MarketHTTP.get_risk_limit MarketEnum.GetRiskLimit ∧
  passesThroughResponse MarketHTTP.get_option_delivery_price
    MarketEnum.GetOptionDeliveryPrice

/-- Claim C2: pass-through law — for every client method and every query
mapping, the Result the dispatcher returns for the dispatched request
(structured value on success, error on failure) is returned by the method
unchanged, with no reinterpretation, filtering or shaping. -/
theorem market_methods_pass_through : clientMethodsPassThrough := by
  repeat' apply And.intro
  all_goals intro c q t
  all_goals rfl

/-- All fourteen methods forward every dispatcher error as-is after a
single dispatch. -/
def clientMethodsPropagateErrors : Prop :=
  propagatesDispatcherError MarketHTTP.get_kline MarketEnum.GetKline ∧
  propagatesDispatcherError MarketHTTP.get_mark_price_kline
    MarketEnum.GetMarkPriceKline ∧
  propagatesDispatcherError MarketHTTP.get_index_price_kline
    MarketEnum.GetIndexPriceKline ∧
  propagatesDispatcherError MarketHTTP.get_premium_index_price_kline
    MarketEnum.GetPremiumIndexPriceKline ∧
  propagatesDispatcherError MarketHTTP.get_instruments_info
    MarketEnum.GetInstrumentsInfo ∧
  propagatesDispatcherError MarketHTTP.get_orderbook
    MarketEnum.GetOrderbook ∧
  propagatesDispatcherError MarketHTTP.get_tickers MarketEnum.GetTickers ∧
  propagatesDispatcherError MarketHTTP.get_funding_rate_history
    MarketEnum.GetFundingRateHistory ∧
  propagatesDispatcherError MarketHTTP.get_public_trade_history
    MarketEnum.GetPublicTradingHistory ∧
  propagatesDispatcherError MarketHTTP.get_open_interest
    MarketEnum.GetOpenInterest ∧
  propagatesDispatcherError MarketHTTP.get_historical_volatility
    MarketEnum.GetHistoricalVolatility ∧
  propagatesDispatcherError MarketHTTP.get_insurance
    MarketEnum.GetInsurance ∧
  propagatesDispatcherError MarketHTTP.get_risk_limit
    MarketEnum.GetRiskLimit ∧
  propagatesDispatcherError MarketHTTP.get_option_delivery_price
    MarketEnum.GetOptionDeliveryPrice

/-- Claim C3: the client generates no errors of its own — whenever the
dispatcher answers a method request with an error, the method returns
exactly that error, untranslated, after exactly one dispatch (no retry);
in particular an authentication failure comes back as-is. -/
theorem market_methods_propagate_errors : clientMethodsPropagateErrors :=
  ⟨fun _ _ _ _ h => submit_request_error _ _ _ _ _ _ _ h,
   fun _ _ _ _ h => submit_request_error _ _ _ _ _ _ _ h,
   fun _ _ _ _ h => submit_request_error _ _ _ _ _ _ _ h,
   fun _ _ _ _ h => submit_request_error _ _ _ _ _ _ _ h,
   fun _ _ _ _ h => submit_request_error _ _ _ _ _ _ _ h,
   fun _ _ _ _ h => submit_request_error _ _ _ _ _ _ _ h,
   fun _ _ _ _ h => submit_request_error _ _ _ _ _ _ _ h,
   fun _ _ _ _ h => submit_request_error _ _ _ _ _ _ _ h,
   fun _ _ _ _ h => submit_request_error _ _ _ _ _ _ _ h,
   fun _ _ _ _ h => submit_request_error _ _ _ _ _ _ _ h,
   fun _ _ _ _ h => submit_request_error _ _ _ _ _ _ _ h,
   fun _ _ _ _ h => submit_request_error _ _ _ _ _ _ _ h,
   fun _ _ _ _ h => submit_request_error _ _ _ _ _ _ _ h,
   fun _ _ _ _ h => submit_request_error _ _ _ _ _ _ _ h⟩

/-- A dispatcher that fails every request with an authentication error. -/
def authFailManager : HttpManager :=
  ⟨fun _ => Except.error DispatchError.authenticationFailure⟩

/-- Witness for C3: with the authentication-failing dispatcher, get_tickers
returns that authentication failure as-is after one dispatch. -/
theorem market_methods_propagate_errors_witness :
    (MarketHTTP.new authFailManager).get_tickers [("category", "spot")] []
      = ([mkReq MarketEnum.GetTickers [("category", "spot")]],
         Except.error DispatchError.authenticationFailure) :=
  market_methods_propagate_errors.2.2.2.2.2.2.1
    (MarketHTTP.new authFailManager) [("category", "spot")] []
    DispatchError.authenticationFailure rfl

/-- Claim C4: catalog resolution is total over the closed fourteen-member
enumeration, every member resolves to a non-empty path, and resolution is
injective — the fourteen resolved paths are pairwise distinct. -/
theorem market_catalog_total_injective :
    (∀ o : MarketEnum, o ∈ MarketEnum.all) ∧
    MarketEnum.all.Nodup ∧
    (MarketEnum.all.map MarketEnum.to_string).Nodup ∧
    (∀ o : MarketEnum, 0 < (MarketEnum.to_string o).length) := by
  decide

/-- Claim C5: concrete scenarios — get_kline called with category linear,
symbol BTCUSDT, interval 60 issues one request on the kline wire path
carrying exactly those three pairs, and get_orderbook called with category
spot, symbol ETHUSDT issues one request on the orderbook wire path. -/
theorem market_scenarios_kline_orderbook :
    (∀ (c : MarketHTTP) (t : Trace),
      (c.get_kline
          [("category", "linear"), ("symbol", "BTCUSDT"),
           ("interval", "60")] t).1
        = t ++ [mkReq MarketEnum.GetKline
            [("category", "linear"), ("symbol", "BTCUSDT"),
             ("interval", "60")]]) ∧
    MarketEnum.to_string MarketEnum.GetKline = "kline" ∧
    (∀ (c : MarketHTTP) (t : Trace),
      (c.get_orderbook [("category", "spot"), ("symbol", "ETHUSDT")] t).1
        = t ++ [mkReq MarketEnum.GetOrderbook
            [("category", "spot"), ("symbol", "ETHUSDT")]]) ∧
    MarketEnum.to_string MarketEnum.GetOrderbook = "orderbook" :=
  ⟨fun _ _ => rfl, rfl, fun _ _ => rfl, rfl⟩

/-- All fourteen methods, invoked twice with the same query, put two
independent identical requests on the trace. -/
def clientMethodsNoDedup : Prop :=
  dispatchesTwiceOnRepeat MarketHTTP.get_kline MarketEnum.GetKline ∧
  dispatchesTwiceOnRepeat MarketHTTP.get_mark_price_kline
    MarketEnum.GetMarkPriceKline ∧
  dispatchesTwiceOnRepeat MarketHTTP.get_index_price_kline
    MarketEnum.GetIndexPriceKline ∧
  dispatchesTwiceOnRepeat MarketHTTP.get_premium_index_price_kline
    MarketEnum.GetPremiumIndexPriceKline ∧
  dispatchesTwiceOnRepeat MarketHTTP.get_instruments_info
    MarketEnum.GetInstrumentsInfo ∧
  dispatchesTwiceOnRepeat MarketHTTP.get_orderbook
    MarketEnum.GetOrderbook ∧
  dispatchesTwiceOnRepeat MarketHTTP.get_tickers MarketEnum.GetTickers ∧
  dispatchesTwiceOnRepeat MarketHTTP.get_funding_rate_history
    MarketEnum.GetFundingRateHistory ∧
  dispatchesTwiceOnRepeat MarketHTTP.get_public_trade_history
    MarketEnum.GetPublicTradingHistory ∧
  dispatchesTwiceOnRepeat MarketHTTP.get_open_interest
    MarketEnum.GetOpenInterest ∧
  dispatchesTwiceOnRepeat MarketHTTP.get_historical_volatility
    MarketEnum.GetHistoricalVolatility ∧
  dispatchesTwiceOnRepeat MarketHTTP.get_insurance
    MarketEnum.GetInsurance ∧
  dispatchesTwiceOnRepeat MarketHTTP.get_risk_limit
    MarketEnum.GetRiskLimit ∧
  dispatchesTwiceOnRepeat MarketHTTP.get_option_delivery_price
    MarketEnum.GetOptionDeliveryPrice

/-- Claim C6: no caching, deduplication or retry — each invocation causes
exactly one dispatcher call, so the same method invoked twice with the
same query mapping puts exactly two independent dispatch requests on the
trace. -/
theorem market_methods_no_dedup : clientMethodsNoDedup :=
  ⟨fun _ q t => trace_append_two t (mkReq MarketEnum.GetKline q),
   fun _ q t => trace_append_two t (mkReq MarketEnum.GetMarkPriceKline q),
   fun _ q t => trace_append_two t (mkReq MarketEnum.GetIndexPriceKline q),
   fun _ q t =>
     trace_append_two t (mkReq MarketEnum.GetPremiumIndexPriceKline q),
   fun _ q t => trace_append_two t (mkReq MarketEnum.GetInstrumentsInfo q),
   fun _ q t => trace_append_two t (mkReq MarketEnum.GetOrderbook q),
   fun _ q t => trace_append_two t (mkReq MarketEnum.GetTickers q),
   fun _ q t =>
     trace_append_two t (mkReq MarketEnum.GetFundingRateHistory q),
   fun _ q t =>
     trace_append_two t (mkReq MarketEnum.GetPublicTradingHistory q),
   fun _ q t => trace_append_two t (mkReq MarketEnum.GetOpenInterest q),
   fun _ q t =>
     trace_append_two t (mkReq MarketEnum.GetHistoricalVolatility q),
   fun _ q t => trace_append_two t (mkReq MarketEnum.GetInsurance q),
   fun _ q t => trace_append_two t (mkReq MarketEnum.GetRiskLimit q),
   fun _ q t =>
     trace_append_two t (mkReq MarketEnum.GetOptionDeliveryPrice q)⟩

/-- Claim C7: statelessness — every client equals the client rebuilt from
its sole dispatcher field, and every method call behaves identically on
the rebuilt client, so the only state a client carries, and the only state
a call can depend on or leave behind, is which dispatcher it references. -/
theorem market_client_stateless :
    (∀ c : MarketHTTP, MarketHTTP.new c.http_manager = c) ∧
    (∀ (c : MarketHTTP) (q : Query) (t : Trace),
      c.get_kline q t = (MarketHTTP.new c.http_manager).get_kline q t ∧
      c.get_mark_price_kline q t
        = (MarketHTTP.new c.http_manager).get_mark_price_kline q t ∧
      c.get_index_price_kline q t
        = (MarketHTTP.new c.http_manager).get_index_price_kline q t ∧
      c.get_premium_index_price_kline q t
        = (MarketHTTP.new c.http_manager).get_premium_index_price_kline q t ∧
      c.get_instruments_info q t
        = (MarketHTTP.new c.http_manager).get_instruments_info q t ∧
      c.get_orderbook q t = (MarketHTTP.new c.http_manager).get_orderbook q t ∧
      c.get_tickers q t = (MarketHTTP.new c.http_manager).get_tickers q t ∧
      c.get_funding_rate_history q t
        = (MarketHTTP.new c.http_manager).get_funding_rate_history q t ∧
      c.get_public_trade_history q t
        = (MarketHTTP.new c.http_manager).get_public_trade_history q t ∧
      c.get_open_interest q t
        = (MarketHTTP.new c.http_manager).get_open_interest q t ∧
      c.get_historical_volatility q t
        = (MarketHTTP.new c.http_manager).get_historical_volatility q t ∧
      c.get_insurance q t = (MarketHTTP.new c.http_manager).get_insurance q t ∧
      c.get_risk_limit q t
        = (MarketHTTP.new c.http_manager).get_risk_limit q t ∧
      c.get_option_delivery_price q t
        = (MarketHTTP.new c.http_manager).get_option_delivery_price q t) :=
  by
  refine And.intro (fun c => rfl) (fun c q t => ?_)
  repeat' apply And.intro
  all_goals rfl

/-- The method for operation op is immediately usable on a freshly
constructed client over dispatcher d: one request, answered by d. -/
def readyAt (d : HttpManager) (f : ClientMethod) (op : MarketEnum) : Prop :=
  ∀ q t, f (MarketHTTP.new d) q t
    = (t ++ [mkReq op q], d.respond (mkReq op q))

/-- Claim C8: construction is total and effect-free — for every dispatcher
d, new d returns a client whose dispatcher reference is exactly d, and
every one of the fourteen methods is immediately usable on the result. -/
theorem market_new_total_injection :
    ∀ d : HttpManager,
      (MarketHTTP.new d).http_manager = d ∧
      readyAt d MarketHTTP.get_kline MarketEnum.GetKline ∧
      readyAt d MarketHTTP.get_mark_price_kline
        MarketEnum.GetMarkPriceKline ∧
      readyAt d MarketHTTP.get_index_price_kline
        MarketEnum.GetIndexPriceKline ∧
      readyAt d MarketHTTP.get_premium_index_price_kline
        MarketEnum.GetPremiumIndexPriceKline ∧
      readyAt d MarketHTTP.get_instruments_info
        MarketEnum.GetInstrumentsInfo ∧
      readyAt d MarketHTTP.get_orderbook MarketEnum.GetOrderbook ∧
      readyAt d MarketHTTP.get_tickers MarketEnum.GetTickers ∧
      readyAt d MarketHTTP.get_funding_rate_history
        MarketEnum.GetFundingRateHistory ∧
      readyAt d MarketHTTP.get_public_trade_history
        MarketEnum.GetPublicTradingHistory ∧
      readyAt d MarketHTTP.get_open_interest MarketEnum.GetOpenInterest ∧
      readyAt d MarketHTTP.get_historical_volatility
        MarketEnum.GetHistoricalVolatility ∧
      readyAt d MarketHTTP.get_insurance MarketEnum.GetInsurance ∧
      readyAt d MarketHTTP.get_risk_limit MarketEnum.GetRiskLimit ∧
      readyAt d MarketHTTP.get_option_delivery_price
        MarketEnum.GetOptionDeliveryPrice :=
  by
  intro d
  repeat' apply And.intro
  all_goals try intro q t
  all_goals rfl

/-- Claim C9: the capability surface is exactly the fourteen operation
methods, each dispatching via its own catalog member — the member list has
fourteen pairwise-distinct entries, and each method issues its single
request from its own member. -/
theorem market_fourteen_distinct_operations :
    MarketEnum.all.length = 14 ∧ MarketEnum.all.Nodup ∧
    clientMethodsDispatchCorrectly :=
  ⟨rfl, by decide, clientMethodsDispatchCorrectly_holds⟩

/-- Claim C10: routing noninterference — for every method, the verb, path
and authenticated flag of the issued request are the same for any two
query mappings: the two dispatch traces differ only in the params
component of the request, so the method never branches on parameter
contents. -/
theorem market_routing_independent_of_params :
    routingIndependentOfParams MarketHTTP.get_kline ∧
    routingIndependentOfParams MarketHTTP.get_mark_price_kline ∧
    routingIndependentOfParams MarketHTTP.get_index_price_kline ∧
    routingIndependentOfParams MarketHTTP.get_premium_index_price_kline ∧
    routingIndependentOfParams MarketHTTP.get_instruments_info ∧
    routingIndependentOfParams MarketHTTP.get_orderbook ∧
    routingIndependentOfParams MarketHTTP.get_tickers ∧
    routingIndependentOfParams MarketHTTP.get_funding_rate_history ∧
    routingIndependentOfParams MarketHTTP.get_public_trade_history ∧
    routingIndependentOfParams MarketHTTP.get_open_interest ∧
    routingIndependentOfParams MarketHTTP.get_historical_volatility ∧
    routingIndependentOfParams MarketHTTP.get_insurance ∧
    routingIndependentOfParams MarketHTTP.get_risk_limit ∧
    routingIndependentOfParams MarketHTTP.get_option_delivery_price :=
  ⟨routingIndependent_of_single _ MarketEnum.GetKline (fun _ _ _ => rfl),
   routingIndependent_of_single _ MarketEnum.GetMarkPriceKline
     (fun _ _ _ => rfl),
   routingIndependent_of_single _ MarketEnum.GetIndexPriceKline
     (fun _ _ _ => rfl),
   routingIndependent_of_single _ MarketEnum.GetPremiumIndexPriceKline
     (fun _ _ _ => rfl),
   routingIndependent_of_single _ MarketEnum.GetInstrumentsInfo
     (fun _ _ _ => rfl),
   routingIndependent_of_single _ MarketEnum.GetOrderbook (fun _ _ _ => rfl),
   routingIndependent_of_single _ MarketEnum.GetTickers (fun _ _ _ => rfl),
   routingIndependent_of_single _ MarketEnum.GetFundingRateHistory
     (fun _ _ _ => rfl),
   routingIndependent_of_single _ MarketEnum.GetPublicTradingHistory
     (fun _ _ _ => rfl),
   routingIndependent_of_single _ MarketEnum.GetOpenInterest
     (fun _ _ _ => rfl),
   routingIndependent_of_single _ MarketEnum.GetHistoricalVolatility
     (fun _ _ _ => rfl),
   routingIndependent_of_single _ MarketEnum.GetInsurance (fun _ _ _ => rfl),
   routingIndependent_of_single _ MarketEnum.GetRiskLimit (fun _ _ _ => rfl),
   routingIndependent_of_single _ MarketEnum.GetOptionDeliveryPrice
     (fun _ _ _ => rfl)⟩

end Bybit
